import Mathlib

/-!
Verification of the offline-aware message synchronization and upload-resilience
core of the chat-demo repository (React Native / Expo chat front end).

Embedded components and their sources:
* the message decode / whole-list-replace subscription logic, the offline cache
  load and the connectivity-gated send of src/components/Chat.js
  (Firestore variant: subscribeOnline, loadFromCache, onSend);
* the three-tier upload fallback chain and the progressive location capture of
  src/components/CustomActions.js (uploadImageAsync, shareLocation);
* the storage bucket constant of the firebase initialization module.

Conventions of the embedding:
* timestamps are milliseconds since the Unix epoch, as natural numbers; the
  JavaScript Date / toISOString / Date-from-string primitives are modelled by
  an executable Gregorian calendar codec (civilFromDays, daysFromCivil,
  toISOString, dateParse) restricted to the epoch-to-year-9994 range in which
  the rendered year is four digits wide;
* asynchronous effects are modelled by environments of explicit outcome
  functions (Except for fallible calls, Option for nullable results);
* geographic coordinates are opaque integer payloads: the code only passes
  them through and never computes with them.
-/

/- ===== Gregorian calendar (model of the JavaScript Date primitives) ===== -/

def isLeap (y : Nat) : Bool := y % 4 = 0 && (y % 100 != 0 || y % 400 = 0)

def daysInYear (y : Nat) : Nat := if isLeap y then 366 else 365

def daysInMonth (y m : Nat) : Nat :=
  if m = 2 then (if isLeap y then 29 else 28)
  else if m = 4 ∨ m = 6 ∨ m = 9 ∨ m = 11 then 30
  else 31

/-- Total days in the k consecutive calendar years starting at year y. -/
def yearsSumFrom (y : Nat) : Nat → Nat
  | 0 => 0
  | k + 1 => daysInYear y + yearsSumFrom (y + 1) k

/-- Total days in the k consecutive months of year y starting at month m. -/
def monthsSumFrom (y m : Nat) : Nat → Nat
  | 0 => 0
  | k + 1 => daysInMonth y m + monthsSumFrom y (m + 1) k

/-- Peel whole calendar years off a day count, starting at year y. -/
def yearPeel : Nat → Nat → Nat → Nat × Nat
  | 0, y, r => (y, r)
  | fuel + 1, y, r =>
    if r < daysInYear y then (y, r) else yearPeel fuel (y + 1) (r - daysInYear y)

/-- Peel whole months of year y off a day-of-year count, starting at month m. -/
def monthPeel (y : Nat) : Nat → Nat → Nat → Nat × Nat
  | 0, m, r => (m, r)
  | fuel + 1, m, r =>
    if r < daysInMonth y m then (m, r) else monthPeel y fuel (m + 1) (r - daysInMonth y m)

/-- Civil date (year, month, day) of a day count since 1970-01-01. -/
def civilFromDays (n : Nat) : Nat × Nat × Nat :=
  let yp := yearPeel n 1970 n
  let mp := monthPeel yp.1 11 1 yp.2
  (yp.1, mp.1, mp.2 + 1)

/-- Day count since 1970-01-01 of a civil date (year, month, day). -/
def daysFromCivil (y m d : Nat) : Nat :=
  yearsSumFrom 1970 (y - 1970) + monthsSumFrom y 1 (m - 1) + (d - 1)

example : civilFromDays 0 = (1970, 1, 1) := by decide
example : civilFromDays 19723 = (2024, 1, 1) := by decide
example : civilFromDays 19782 = (2024, 2, 29) := by decide
example : daysFromCivil 2024 2 29 = 19782 := by decide
example : civilFromDays 11016 = (2000, 2, 29) := by decide

theorem yearPeel_spec (fuel : Nat) : ∀ y r, r ≤ 365 * fuel + 364 →
    yearsSumFrom y ((yearPeel fuel y r).1 - y) + (yearPeel fuel y r).2 = r ∧
    (yearPeel fuel y r).2 < daysInYear (yearPeel fuel y r).1 ∧
    y ≤ (yearPeel fuel y r).1 := by
  induction fuel with
  | zero =>
    intro y r hr
    simp only [yearPeel, Nat.sub_self, yearsSumFrom]
    have : 365 ≤ daysInYear y := by unfold daysInYear; split <;> omega
    omega
  | succ fuel ih =>
    intro y r hr
    simp only [yearPeel]
    split
    · simp only [Nat.sub_self, yearsSumFrom]; omega
    · rename_i hge
      have hdy : 365 ≤ daysInYear y ∧ daysInYear y ≤ 366 := by
        unfold daysInYear; split <;> omega
      have ih2 := ih (y + 1) (r - daysInYear y) (by omega)
      set res := yearPeel fuel (y + 1) (r - daysInYear y) with hres
      have hy1 : y + 1 ≤ res.1 := ih2.2.2
      have hsum : yearsSumFrom y (res.1 - y) = daysInYear y + yearsSumFrom (y + 1) (res.1 - (y + 1)) := by
        have h1 : res.1 - y = (res.1 - (y + 1)) + 1 := by omega
        rw [h1, yearsSumFrom]
      refine ⟨?_, ih2.2.1, by omega⟩
      rw [hsum]
      omega

theorem monthPeel_spec (y : Nat) (fuel : Nat) : ∀ m r, r < monthsSumFrom y m (fuel + 1) →
    monthsSumFrom y m ((monthPeel y fuel m r).1 - m) + (monthPeel y fuel m r).2 = r ∧
    (monthPeel y fuel m r).2 < daysInMonth y (monthPeel y fuel m r).1 ∧
    m ≤ (monthPeel y fuel m r).1 ∧ (monthPeel y fuel m r).1 ≤ m + fuel := by
  induction fuel with
  | zero =>
    intro m r hr
    simp only [monthsSumFrom] at hr
    simp only [monthPeel, Nat.sub_self, monthsSumFrom]
    omega
  | succ fuel ih =>
    intro m r hr
    simp only [monthPeel]
    split
    · simp only [Nat.sub_self, monthsSumFrom]; omega
    · rename_i hge
      have hstep : monthsSumFrom y m (fuel + 1 + 1) = daysInMonth y m + monthsSumFrom y (m + 1) (fuel + 1) := by
        rw [monthsSumFrom]
      have ih2 := ih (m + 1) (r - daysInMonth y m) (by omega)
      set res := monthPeel y fuel (m + 1) (r - daysInMonth y m) with hres
      have hm1 : m + 1 ≤ res.1 := ih2.2.2.1
      have hsum : monthsSumFrom y m (res.1 - m) = daysInMonth y m + monthsSumFrom y (m + 1) (res.1 - (m + 1)) := by
        have h1 : res.1 - m = (res.1 - (m + 1)) + 1 := by omega
        rw [h1, monthsSumFrom]
      refine ⟨?_, ih2.2.1, by omega, by omega⟩
      rw [hsum]
      omega

theorem monthsSum_year (y : Nat) : monthsSumFrom y 1 12 = daysInYear y := by
  cases h : isLeap y <;>
    simp [monthsSumFrom, daysInMonth, daysInYear, h]

/-- The calendar decomposition is a section of the day-count map, and yields
a month in 1..12 and a day in 1..daysInMonth. -/
theorem civil_spec (n : Nat) :
    daysFromCivil (civilFromDays n).1 (civilFromDays n).2.1 (civilFromDays n).2.2 = n ∧
    1970 ≤ (civilFromDays n).1 ∧
    1 ≤ (civilFromDays n).2.1 ∧ (civilFromDays n).2.1 ≤ 12 ∧
    1 ≤ (civilFromDays n).2.2 ∧
    (civilFromDays n).2.2 ≤ daysInMonth (civilFromDays n).1 (civilFromDays n).2.1 := by
  have hy := yearPeel_spec n 1970 n (by omega)
  set yp := yearPeel n 1970 n with hyp
  have hmpre : yp.2 < monthsSumFrom yp.1 1 12 := by
    rw [monthsSum_year]; exact hy.2.1
  have hm := monthPeel_spec yp.1 11 1 yp.2 hmpre
  set mp := monthPeel yp.1 11 1 yp.2 with hmp
  simp only [civilFromDays, daysFromCivil, ← hyp, ← hmp]
  have h12 : mp.1 ≤ 12 := hm.2.2.2
  have h1m : 1 ≤ mp.1 := hm.2.2.1
  refine ⟨?_, hy.2.2, h1m, h12, by omega, by omega⟩
  have h1 := hy.1
  have h2 := hm.1
  omega

theorem yearsSum_lb (k : Nat) : ∀ y, 365 * k ≤ yearsSumFrom y k := by
  induction k with
  | zero => intro y; simp [yearsSumFrom]
  | succ k ih =>
    intro y
    have h1 := ih (y + 1)
    have h2 : 365 ≤ daysInYear y := by unfold daysInYear; split <;> omega
    simp only [yearsSumFrom]
    omega

/-- Day counts below 365 * 8030 (before calendar year 9995) have a
four-digit year. -/
theorem civil_year_le (n : Nat) (h : n < 365 * 8030) : (civilFromDays n).1 ≤ 9999 := by
  have hy := yearPeel_spec n 1970 n (by omega)
  set yp := yearPeel n 1970 n with hyp
  simp only [civilFromDays, ← hyp]
  by_contra hcon
  have h10000 : 10000 ≤ yp.1 := by omega
  have hlb := yearsSum_lb (yp.1 - 1970) 1970
  omega

/- ===== Fixed-width decimal rendering and parsing ===== -/

/-- The low w decimal digits of n as zero-padded characters, most significant
first (model of the fixed-width fields of Date.prototype.toISOString). -/
def padDigits : Nat → Nat → List Char
  | 0, _ => []
  | w + 1, n => Char.ofNat (48 + n / 10 ^ w % 10) :: padDigits w n

/-- Consume exactly w decimal digit characters, folding them onto acc. -/
def parseFixedAux : Nat → Nat → List Char → Option (Nat × List Char)
  | 0, acc, cs => some (acc, cs)
  | _ + 1, _, [] => none
  | w + 1, acc, c :: cs =>
    if 48 ≤ c.toNat ∧ c.toNat ≤ 57 then parseFixedAux w (acc * 10 + (c.toNat - 48)) cs
    else none

def parseFixed (w : Nat) (cs : List Char) : Option (Nat × List Char) :=
  parseFixedAux w 0 cs

/-- Consume one expected literal character. -/
def expectChar (c : Char) (cs : List Char) : Option (List Char) :=
  match cs with
  | [] => none
  | x :: rest => if x = c then some rest else none

/-- ISO-8601 basic UTC rendering YYYY-MM-DDTHH:MM:SS.mmmZ of a millisecond
timestamp (model of Date.prototype.toISOString for four-digit years). -/
def toISOChars (t : Nat) : List Char :=
  let msod := t % 86400000
  let c := civilFromDays (t / 86400000)
  padDigits 4 c.1 ++ '-' ::
  (padDigits 2 c.2.1 ++ '-' ::
  (padDigits 2 c.2.2 ++ 'T' ::
  (padDigits 2 (msod / 3600000) ++ ':' ::
  (padDigits 2 (msod % 3600000 / 60000) ++ ':' ::
  (padDigits 2 (msod % 60000 / 1000) ++ '.' ::
  (padDigits 3 (msod % 1000) ++ ['Z']))))))

/-- Strict positional parser for the rendering above, with calendar range
validation (model of new Date(isoString) on the epoch-onward range; an
out-of-range or malformed input is Invalid Date, here none). -/
def parseISOChars (cs : List Char) : Option Nat :=
  match parseFixed 4 cs with
  | none => none
  | some (y, cs) =>
  match expectChar '-' cs with
  | none => none
  | some cs =>
  match parseFixed 2 cs with
  | none => none
  | some (mo, cs) =>
  match expectChar '-' cs with
  | none => none
  | some cs =>
  match parseFixed 2 cs with
  | none => none
  | some (dy, cs) =>
  match expectChar 'T' cs with
  | none => none
  | some cs =>
  match parseFixed 2 cs with
  | none => none
  | some (hh, cs) =>
  match expectChar ':' cs with
  | none => none
  | some cs =>
  match parseFixed 2 cs with
  | none => none
  | some (mi, cs) =>
  match expectChar ':' cs with
  | none => none
  | some cs =>
  match parseFixed 2 cs with
  | none => none
  | some (ss, cs) =>
  match expectChar '.' cs with
  | none => none
  | some cs =>
  match parseFixed 3 cs with
  | none => none
  | some (ms, cs) =>
  match expectChar 'Z' cs with
  | none => none
  | some cs =>
  match cs with
  | _ :: _ => none
  | [] =>
    if 1970 ≤ y ∧ 1 ≤ mo ∧ mo ≤ 12 ∧ 1 ≤ dy ∧ dy ≤ daysInMonth y mo ∧
        hh ≤ 23 ∧ mi ≤ 59 ∧ ss ≤ 59 then
      some (daysFromCivil y mo dy * 86400000 + hh * 3600000 + mi * 60000 + ss * 1000 + ms)
    else none

/-- Rendering of a timestamp as an ISO-8601 string (String-level wrapper). -/
def toISOString (t : Nat) : String := String.mk (toISOChars t)

/-- Parsing of an ISO-8601 string back to a millisecond timestamp. -/
def dateParse (s : String) : Option Nat := parseISOChars s.toList

theorem char_digit_toNat (k : Nat) (h : k < 10) : (Char.ofNat (48 + k)).toNat = 48 + k := by
  interval_cases k <;> decide

theorem parseFixedAux_pad : ∀ w acc n rest,
    parseFixedAux w acc (padDigits w n ++ rest) = some (acc * 10 ^ w + n % 10 ^ w, rest)
  | 0, acc, n, rest => by simp [parseFixedAux, padDigits, Nat.mod_one]
  | w + 1, acc, n, rest => by
    have hd : n / 10 ^ w % 10 < 10 := Nat.mod_lt _ (by norm_num)
    have hchar := char_digit_toNat (n / 10 ^ w % 10) hd
    have ih := parseFixedAux_pad w (acc * 10 + n / 10 ^ w % 10) n rest
    simp only [padDigits, List.cons_append, List.append_eq, parseFixedAux, hchar]
    rw [if_pos (by omega)]
    have harg : 48 + n / 10 ^ w % 10 - 48 = n / 10 ^ w % 10 := by omega
    rw [harg, ih]
    have hm : n % 10 ^ (w + 1) = n % 10 ^ w + 10 ^ w * (n / 10 ^ w % 10) := by
      rw [pow_succ, Nat.mod_mul]
    congr 2
    rw [hm, pow_succ]
    ring

theorem parseFixed_pad (w n : Nat) (h : n < 10 ^ w) (rest : List Char) :
    parseFixed w (padDigits w n ++ rest) = some (n, rest) := by
  unfold parseFixed
  rw [parseFixedAux_pad]
  simp [Nat.mod_eq_of_lt h]

theorem expectChar_cons (c : Char) (cs : List Char) : expectChar c (c :: cs) = some cs := by
  simp [expectChar]

theorem daysInMonth_le (y m : Nat) : daysInMonth y m ≤ 31 := by
  unfold daysInMonth
  split
  · split <;> omega
  · split <;> omega

/-- Upper bound of the timestamp range on which the ISO codec is proved to
round-trip: strictly before calendar year 9995 (a conservative bound below
the four-digit-year limit). -/
def maxIsoTime : Nat := 365 * 8030 * 86400000

/-- ISO round trip at character level: parsing a rendered timestamp in range
recovers it exactly, millisecond included. -/
theorem parse_toISO (t : Nat) (h : t < maxIsoTime) :
    parseISOChars (toISOChars t) = some t := by
  have h2 : t < 365 * 8030 * 86400000 := h
  simp only [toISOChars]
  have hdays : t / 86400000 < 365 * 8030 := by omega
  have hc := civil_spec (t / 86400000)
  have hy4 := civil_year_le (t / 86400000) hdays
  set c := civilFromDays (t / 86400000) with hcdef
  have hdy31 : c.2.2 ≤ 31 := le_trans hc.2.2.2.2.2 (daysInMonth_le c.1 c.2.1)
  have h1 : ∀ r, parseFixed 4 (padDigits 4 c.1 ++ r) = some (c.1, r) :=
    parseFixed_pad 4 c.1 (by omega)
  have h2p : ∀ r, parseFixed 2 (padDigits 2 c.2.1 ++ r) = some (c.2.1, r) :=
    parseFixed_pad 2 c.2.1 (by omega)
  have h3p : ∀ r, parseFixed 2 (padDigits 2 c.2.2 ++ r) = some (c.2.2, r) :=
    parseFixed_pad 2 c.2.2 (by omega)
  have h4p : ∀ r, parseFixed 2 (padDigits 2 (t % 86400000 / 3600000) ++ r) =
      some (t % 86400000 / 3600000, r) :=
    parseFixed_pad 2 (t % 86400000 / 3600000) (by omega)
  have h5p : ∀ r, parseFixed 2 (padDigits 2 (t % 86400000 % 3600000 / 60000) ++ r) =
      some (t % 86400000 % 3600000 / 60000, r) :=
    parseFixed_pad 2 (t % 86400000 % 3600000 / 60000) (by omega)
  have h6p : ∀ r, parseFixed 2 (padDigits 2 (t % 86400000 % 60000 / 1000) ++ r) =
      some (t % 86400000 % 60000 / 1000, r) :=
    parseFixed_pad 2 (t % 86400000 % 60000 / 1000) (by omega)
  have h7p : ∀ r, parseFixed 3 (padDigits 3 (t % 86400000 % 1000) ++ r) =
      some (t % 86400000 % 1000, r) :=
    parseFixed_pad 3 (t % 86400000 % 1000) (by omega)
  simp only [parseISOChars, h1, h2p, h3p, h4p, h5p, h6p, h7p, expectChar_cons]
  rw [if_pos]
  · congr 1
    rw [hc.1]
    omega
  · exact ⟨hc.2.1, hc.2.2.1, hc.2.2.2.1, hc.2.2.2.2.1, hc.2.2.2.2.2, by omega, by omega, by omega⟩

/-- ISO round trip at String level. -/
theorem dateParse_toISOString (t : Nat) (h : t < maxIsoTime) :
    dateParse (toISOString t) = some t := by
  unfold dateParse toISOString
  exact parse_toISO t h

/- ===== Data model (src/components/Chat.js, Firestore variant) ===== -/

/-- A JavaScript identifier value: the code mixes numeric ids (the default
author id 1) and string ids (Firestore document ids, auth user ids). -/
inductive JsId
  | num (n : Int)
  | str (s : String)
deriving DecidableEq

/-- Author snapshot carried by a message (the user field of GiftedChat
messages: id, display name, optional avatar URL). -/
structure User where
  uid : JsId
  name : String
  avatar : Option String
deriving DecidableEq

/-- In-memory chat message as built by the subscription callback of
subscribeOnline: document id, text, createdAt as a millisecond timestamp,
author, and the system flag (present only when true in the source document,
modelled as a Bool). -/
structure Message where
  mid : JsId
  text : String
  createdAt : Nat
  user : User
  system : Bool
deriving DecidableEq

/-- Serialized form of a message inside the cache snapshot: identical shape
except that createdAt is an ISO-8601 string (Chat.js line 230). -/
structure CachedMessage where
  mid : JsId
  text : String
  createdAt : String
  user : User
  system : Bool
deriving DecidableEq

/-- Chat.js line 230: toCache maps each message, replacing createdAt by
its toISOString rendering. -/
def serializeMessage (m : Message) : CachedMessage :=
  { mid := m.mid, text := m.text, createdAt := toISOString m.createdAt,
    user := m.user, system := m.system }

/-- Chat.js line 197: restore maps each cached record, replacing createdAt by
new Date(string); an unparseable string (Invalid Date) is collapsed to 0. -/
def restoreMessage (c : CachedMessage) : Message :=
  { mid := c.mid, text := c.text, createdAt := (dateParse c.createdAt).getD 0,
    user := c.user, system := c.system }

/- ===== Firestore document decoding (Chat.js lines 209-226) ===== -/

/-- Value found in the createdAt field of a remote document: either a
Firestore Timestamp (an object carrying toDate), or a raw numeric value
handed to new Date; absence is modelled by Option at the use site. -/
inductive CreatedAtValue
  | tsVal (ms : Nat)
  | numVal (n : Nat)
deriving DecidableEq

/-- Fields of a remote document that the decode inspects; every field may be
missing. -/
structure DocData where
  text : Option String
  createdAt : Option CreatedAtValue
  user : Option User
  system : Option Bool
deriving DecidableEq

/-- A remote document of a snapshot: Firestore-assigned id plus data, where
doc.data() may itself be undefined (Chat.js line 210: doc.data() or empty). -/
structure Doc where
  id : String
  data : Option DocData
deriving DecidableEq

def emptyDocData : DocData := { text := none, createdAt := none, user := none, system := none }

def placeholderAvatar : String := "https://placeimg.com/140/140/any"

/-- The synthesized anonymous author used when a document carries no user
(Chat.js lines 219-223): numeric id 1, the route name, placeholder avatar. -/
def anonUser (name : String) : User :=
  { uid := .num 1, name := name, avatar := some placeholderAvatar }

/-- Chat.js lines 211-214: a Timestamp decodes through toDate; a raw truthy
value decodes through new Date; a missing or falsy value (JavaScript treats
the number 0 as falsy) decodes to the current time. -/
def decodeCreatedAt (v : Option CreatedAtValue) (now : Nat) : Nat :=
  match v with
  | some (.tsVal ms) => ms
  | some (.numVal n) => if n = 0 then now else n
  | none => now

/-- Chat.js lines 209-226: normalization of one remote document into the
Message shape, with name the route user name and now the wall-clock time of
the snapshot callback. -/
def decodeDoc (name : String) (now : Nat) (d : Doc) : Message :=
  let data := d.data.getD emptyDocData
  { mid := .str d.id
    text := data.text.getD ""
    createdAt := decodeCreatedAt data.createdAt now
    user := data.user.getD (anonUser name)
    system := match data.system with
      | some true => true
      | _ => false }

/- ===== Local cache and offline load (Chat.js lines 191-203) ===== -/

/-- Parsed shape of the cache blob: either a serialized message sequence or
some other JSON value (the code only distinguishes arrays via Array.isArray;
all non-array values behave identically). -/
inductive CacheJson
  | arr (ms : List CachedMessage)
  | nonArray
deriving DecidableEq

/-- State of the durable cache entry under the chat_messages key: absent
(getItem returns null), present but unparseable (JSON.parse throws), or a
parsed JSON value. -/
inductive RawCache
  | absent
  | corrupt
  | value (v : CacheJson)
deriving DecidableEq

/-- Chat.js lines 191-203 as a function of the current in-memory list:
an absent blob returns early (list untouched); a parse error is caught
(list untouched); a parsed array is restored element-wise; a parsed
non-array yields the empty list. Totality embodies the fact that the
function never throws to its caller. -/
def loadFromCache (current : List Message) (raw : RawCache) : List Message :=
  match raw with
  | .absent => current
  | .corrupt => current
  | .value (.arr ms) => ms.map restoreMessage
  | .value .nonArray => []

/- ===== Session state machine (Chat.js useEffect, lines 188-245) ===== -/

/-- Observable state of one execution of the subscription effect: the route
name closed over by the callbacks, whether a live onSnapshot subscription
was created, the in-memory message list, and the durable cache. -/
structure Session where
  name : String
  subscribed : Bool
  messages : List Message
  cache : RawCache
deriving DecidableEq

/-- Chat.js lines 238-242: the effect body chooses the live-subscription
path or the cache-load path from the connectivity snapshot at call time.
subscribeOnline (line 206) creates a subscription only when the db handle
is present; the mount-time message list is empty (line 171). -/
def start (dbPresent isConnected : Bool) (name : String) (cache : RawCache) : Session :=
  if isConnected then
    { name := name, subscribed := dbPresent, messages := [], cache := cache }
  else
    { name := name, subscribed := false, messages := loadFromCache [] cache, cache := cache }

/-- One remote feed emission: the wall-clock time at which the snapshot
callback runs, the emitted documents in emitted order, and whether the
subsequent cache write succeeds (line 229-234: failures are caught and only
logged). -/
structure Emission where
  now : Nat
  docs : List Doc
  cacheWriteOk : Bool
deriving DecidableEq

/-- Events that can occur while a session runs: a remote emission delivered
to the snapshot callback, a connectivity change of the host environment, and
a send attempt (which never mutates the subscription state). -/
inductive SessionEvent
  | emission (e : Emission)
  | connChange (b : Bool)
  | send (isConnected : Bool) (batch : List Message)
deriving DecidableEq

/-- Chat.js lines 208-235: the snapshot callback decodes every emitted
document, replaces the whole in-memory list with the decoded set
(setMessages(fetched)), and overwrites the cache with the serialized list
when the write succeeds. An emission only reaches a session that holds a
live subscription. Connectivity changes and sends do not alter the
subscription choice of the running effect execution. -/
def stepEvent (st : Session) : SessionEvent → Session
  | .emission e =>
    if st.subscribed then
      let fetched := e.docs.map (decodeDoc st.name e.now)
      { st with
        messages := fetched
        cache := if e.cacheWriteOk then .value (.arr (fetched.map serializeMessage)) else st.cache }
    else st
  | .connChange _ => st
  | .send _ _ => st

/-- A session run: fold the events over the started session. -/
def runSession (st : Session) (evs : List SessionEvent) : Session :=
  evs.foldl stepEvent st

/- ===== Connectivity-gated send (Chat.js lines 248-254) ===== -/

/-- Externally visible effects of one onSend call: the offline alert, or a
remote document creation carrying newMessages[0] (undefined, hence none,
when the batch is empty). -/
inductive SendEffect
  | offlineAlert
  | remoteWrite (payload : Option Message)
deriving DecidableEq

/-- Chat.js lines 248-254: when offline, alert and return with no side
effect; when online, addDoc the first element of the batch. The session is
returned unchanged in both branches: onSend touches neither the in-memory
list nor the cache. -/
def onSend (isConnected : Bool) (st : Session) (newMessages : List Message) :
    Session × List SendEffect :=
  if !isConnected then (st, [.offlineAlert])
  else (st, [.remoteWrite newMessages.head?])

theorem stepEvent_subscribed (st : Session) (ev : SessionEvent) :
    (stepEvent st ev).subscribed = st.subscribed := by
  cases ev <;> simp only [stepEvent]
  split <;> rfl

theorem stepEvent_name (st : Session) (ev : SessionEvent) :
    (stepEvent st ev).name = st.name := by
  cases ev <;> simp only [stepEvent]
  split <;> rfl

theorem runSession_subscribed (evs : List SessionEvent) : ∀ st : Session,
    (runSession st evs).subscribed = st.subscribed := by
  induction evs with
  | nil => intro st; rfl
  | cons ev evs ih =>
    intro st
    show (runSession (stepEvent st ev) evs).subscribed = st.subscribed
    rw [ih, stepEvent_subscribed]

theorem runSession_name (evs : List SessionEvent) : ∀ st : Session,
    (runSession st evs).name = st.name := by
  induction evs with
  | nil => intro st; rfl
  | cons ev evs ih =>
    intro st
    show (runSession (stepEvent st ev) evs).name = st.name
    rw [ih, stepEvent_name]

/- ===== Attachment uploader (src/components/CustomActions.js) ===== -/

/-- Storage bucket name from the firebase initialization module
(firebaseConfig.storageBucket, exported as storageBucketName). -/
def storageBucketName : String := "chat-demo-502d3.firebasestorage.app"

/-- A fetched binary body: opaque bytes plus the MIME type reported by
blob.type (possibly the empty string). -/
structure Blob where
  bytes : List Nat
  type : String
deriving DecidableEq

/-- An HTTP response of the tertiary REST tier: status, status text, and the
body text read by res.text(). -/
structure HttpResp where
  status : Nat
  statusText : String
  body : String
deriving DecidableEq

/-- The three transfer tiers of uploadImageAsync, in source order. -/
inductive Tier
  | primary
  | secondary
  | tertiary
deriving DecidableEq

/-- Errors that can propagate out of uploadImageAsync: a thrown runtime or
SDK error with its message; the distinguishable bucket-not-provisioned error
built for a 404 REST response (CustomActions.js line 73, carrying the bucket
name and the response body); and the generic REST error carrying status,
status text and body (line 75). -/
inductive UploadError
  | js (msg : String)
  | restNotProvisioned (bucket : String) (body : String)
  | restHttp (status : Nat) (statusText : String) (body : String)
deriving DecidableEq

/-- Outcome environment for one uploadImageAsync run: each field gives the
result of the corresponding external primitive when invoked with the shown
arguments. -/
structure StorageEnv where
  fetchBlob : String → Except UploadError Blob
  uploadBytes : String → Blob → String → Except UploadError Unit
  readAsBase64 : String → Except UploadError String
  uploadString : String → String → String → Except UploadError Unit
  getIdToken : Except UploadError (Option String)
  restPost : String → Option String → String → Blob → Except UploadError HttpResp
  getDownloadURL : String → Except UploadError String

def isAlnumChar (c : Char) : Bool :=
  decide ((48 ≤ c.toNat ∧ c.toNat ≤ 57) ∨ (65 ≤ c.toNat ∧ c.toNat ≤ 90) ∨
    (97 ≤ c.toNat ∧ c.toNat ≤ 122))

/-- First match of the extension pattern of CustomActions.js line 39: scan
left to right; at each dot take the maximal alphanumeric run after it and
accept it when followed by a question mark or the end of the input. -/
def extScan : List Char → Option String
  | [] => none
  | c :: rest =>
    if c = '.' then
      let sp := rest.span isAlnumChar
      if sp.1 ≠ [] ∧ (sp.2 = [] ∨ sp.2.head? = some '?') then some (String.mk sp.1)
      else extScan rest
    else extScan rest

/-- CustomActions.js lines 39-40: extension extracted from the URI, with the
jpg default. -/
def extFromUri (uri : String) : String := (extScan uri.toList).getD "jpg"

def hexDigitChar (n : Nat) : Char :=
  if n < 10 then Char.ofNat (48 + n) else Char.ofNat (55 + n)

def isUnreservedChar (c : Char) : Bool :=
  isAlnumChar c ||
    decide (c = '-' ∨ c = '_' ∨ c = '.' ∨ c = '!' ∨ c = '~' ∨ c = '*' ∨
      c = Char.ofNat 39 ∨ c = '(' ∨ c = ')')

/-- Model of the encodeURIComponent builtin: percent-encode every ASCII
character outside the unreserved set; characters above ASCII are kept as-is
(the paths built by this code are ASCII). -/
def encodeChar (c : Char) : List Char :=
  if isUnreservedChar c then [c]
  else if c.toNat < 128 then ['%', hexDigitChar (c.toNat / 16), hexDigitChar (c.toNat % 16)]
  else [c]

def encodeURIComponent (s : String) : String :=
  String.mk (s.toList.map encodeChar).flatten

/-- CustomActions.js line 41: the destination path, computed once from the
folder, the sending user id (anon when falsy), the clock, the random
disambiguator, and the URI extension. -/
def mkPath (folder : String) (userId : Option String) (now rand : Nat) (uri : String) : String :=
  folder ++ "/" ++
    (match userId with
      | some s => if s = "" then "anon" else s
      | none => "anon") ++
    "/" ++ toString now ++ "_" ++ toString rand ++ "." ++ extFromUri uri

/-- CustomActions.js line 61: the REST upload endpoint for the precomputed
destination path. -/
def restUploadUrl (bucket path : String) : String :=
  "https://firebasestorage.googleapis.com/v0/b/" ++ bucket ++ "/o?name=" ++
    encodeURIComponent path

/-- CustomActions.js line 43: content type inferred from the blob, defaulting
to image/jpeg when blob.type is falsy (the empty string). -/
def contentTypeOf (b : Blob) : String :=
  if b.type = "" then "image/jpeg" else b.type

/-- Primary tier (lines 46-48): SDK uploadBytes with the blob, then resolve
the download URL; any throw inside the block falls through to tier two. -/
def uploadTier1 (env : StorageEnv) (path : String) (b : Blob) (ct : String) :
    Except UploadError String :=
  match env.uploadBytes path b ct with
  | .error e => .error e
  | .ok _ => env.getDownloadURL path

/-- Secondary tier (lines 51-54): re-read the resource as base64, SDK
uploadString, then resolve the download URL of the same path. -/
def uploadTier2 (env : StorageEnv) (uri path ct : String) : Except UploadError String :=
  match env.readAsBase64 uri with
  | .error e => .error e
  | .ok b64 =>
    match env.uploadString path b64 ct with
    | .error e => .error e
    | .ok _ => env.getDownloadURL path

/-- Tertiary tier (lines 57-77): obtain a bearer token if available, POST the
blob to the REST endpoint; a 2xx response resolves the download URL; a 404
becomes the distinguishable provisioning error; any other non-2xx becomes a
generic REST error with status and body. -/
def uploadTier3 (env : StorageEnv) (path ct : String) (b : Blob) : Except UploadError String :=
  match env.getIdToken with
  | .error e => .error e
  | .ok idToken =>
    match env.restPost (restUploadUrl storageBucketName path) idToken ct b with
    | .error e => .error e
    | .ok res =>
      if 200 ≤ res.status ∧ res.status ≤ 299 then env.getDownloadURL path
      else if res.status = 404 then .error (.restNotProvisioned storageBucketName res.body)
      else .error (.restHttp res.status res.statusText res.body)

/-- CustomActions.js lines 36-84: fetch the blob, compute the shared
destination path once, then attempt the three tiers strictly in order,
stopping at the first success; the deepest error propagates (line 80: the
thrown tertiary error is always truthy). The second component records which
tiers were attempted. -/
def uploadImageAsync (env : StorageEnv) (uri folder : String) (userId : Option String)
    (now rand : Nat) : Except UploadError String × List Tier :=
  match env.fetchBlob uri with
  | .error e => (.error e, [])
  | .ok blob =>
    let path := mkPath folder userId now rand uri
    let ct := contentTypeOf blob
    match uploadTier1 env path blob ct with
    | .ok url => (.ok url, [.primary])
    | .error _ =>
      match uploadTier2 env uri path ct with
      | .ok url => (.ok url, [.primary, .secondary])
      | .error _ =>
        match uploadTier3 env path ct blob with
        | .ok url => (.ok url, [.primary, .secondary, .tertiary])
        | .error e3 => (.error e3, [.primary, .secondary, .tertiary])

/- ===== Location capture (CustomActions.js lines 161-238) ===== -/

/-- Coordinates of a position fix; a missing component models a value that
fails the typeof number check. The payload is an opaque integer: the code
never computes with coordinates. -/
structure Coords where
  latitude : Option Int
  longitude : Option Int
deriving DecidableEq

/-- A position as returned by the location API; coords itself may be
missing. -/
structure Position where
  coords : Option Coords
deriving DecidableEq

/-- Outcome environment of one shareLocation run: connectivity, platform
identifier, permission status string, the services-enabled flag, and the
results of the three fix attempts (none models a throw, or for the
last-known query a null return). -/
structure LocEnv where
  isConnected : Bool
  platform : String
  permStatus : String
  servicesEnabled : Bool
  highFix : Option Position
  balancedFix : Option Position
  lastKnown : Option Position
deriving DecidableEq

/-- User-visible outcome of shareLocation: each alert of the source, or a
sent location message carrying the coordinate pair. -/
inductive LocOutcome
  | offlineAlert
  | permissionAlert
  | servicesAlert (remediation : String)
  | unavailableAlert (tip : String)
  | sent (latitude longitude : Int)
deriving DecidableEq

/-- CustomActions.js lines 176-183: Platform.select remediation text shown
when device location services are off. -/
def servicesRemediation (platform : String) : String :=
  if platform = "android" then
    "Turn on Location in the emulator: Settings > Location (Use location ON), then set a mock location via Extended controls > Location."
  else if platform = "ios" then
    "Turn on Location Services in the simulator: Features > Location > choose a preset."
  else
    "Please enable device location services and try again."

/-- CustomActions.js lines 217-219: emulator guidance shown when no fix with
numeric coordinates is available. -/
def locationUnavailableTip (platform : String) : String :=
  if platform = "android" then
    "In Android Emulator, open Extended controls > Location and press Set Location (or select a preset like San Francisco)."
  else
    "In iOS Simulator, use Features > Location > select a preset (e.g., Apple)."

/-- CustomActions.js lines 189-212: the position after the progressive chain
of attempts; each later attempt runs only when every earlier one left
position null. -/
def resolvedPosition (env : LocEnv) : Option Position :=
  match env.highFix with
  | some p => some p
  | none =>
    match env.balancedFix with
    | some p => some p
    | none => env.lastKnown

/-- CustomActions.js lines 161-232: connectivity gate, permission gate,
services gate, progressive fix chain, numeric-coordinate check, then either
the sent location message or the unavailability alert with guidance. -/
def shareLocation (env : LocEnv) : LocOutcome :=
  if !env.isConnected then .offlineAlert
  else if env.permStatus ≠ "granted" then .permissionAlert
  else if !env.servicesEnabled then .servicesAlert (servicesRemediation env.platform)
  else
    let coords := (resolvedPosition env).bind Position.coords
    match coords.bind Coords.latitude, coords.bind Coords.longitude with
    | some la, some lo => .sent la lo
    | some _, none => .unavailableAlert (locationUnavailableTip env.platform)
    | none, _ => .unavailableAlert (locationUnavailableTip env.platform)

/- ===== Helper lemmas for the session run ===== -/

theorem runSession_append (st : Session) (evs : List SessionEvent) (ev : SessionEvent) :
    runSession st (evs ++ [ev]) = stepEvent (runSession st evs) ev := by
  unfold runSession
  rw [List.foldl_append]
  rfl

theorem restoreMessage_serializeMessage (m : Message) (h : m.createdAt < maxIsoTime) :
    restoreMessage (serializeMessage m) = m := by
  have hd := dateParse_toISOString m.createdAt h
  simp only [serializeMessage, restoreMessage, hd, Option.getD_some]

theorem map_restore_serialize (msgs : List Message)
    (h : ∀ m ∈ msgs, m.createdAt < maxIsoTime) :
    (msgs.map serializeMessage).map restoreMessage = msgs := by
  induction msgs with
  | nil => rfl
  | cons m rest ih =>
    simp only [List.map_cons]
    rw [restoreMessage_serializeMessage m (h m (by simp)),
      ih (fun x hx => h x (by simp [hx]))]

/- ===== Sample inputs used by the witnesses ===== -/

def sampleUser : User := { uid := .str "u1", name := "Ann", avatar := none }

def sampleMessage : Message :=
  { mid := .str "m1", text := "hi", createdAt := 1700000000123, user := sampleUser,
    system := false }

def sampleDoc : Doc :=
  { id := "d1"
    data := some { text := some "hello", createdAt := some (.tsVal 1700000000000),
                   user := some sampleUser, system := none } }

def sampleEmission : Emission :=
  { now := 1700000000500, docs := [sampleDoc], cacheWriteOk := true }

def sampleEnvT2 : StorageEnv :=
  { fetchBlob := fun _ => .ok { bytes := [1, 2], type := "" }
    uploadBytes := fun _ _ _ => .error (.js "bytes transport failed")
    readAsBase64 := fun _ => .ok "QUJD"
    uploadString := fun _ _ _ => .ok ()
    getIdToken := .ok none
    restPost := fun _ _ _ _ => .error (.js "unreachable")
    getDownloadURL := fun _ => .ok "https://example.com/files/1" }

def sampleEnv404 : StorageEnv :=
  { fetchBlob := fun _ => .ok { bytes := [7], type := "image/png" }
    uploadBytes := fun _ _ _ => .error (.js "bytes transport failed")
    readAsBase64 := fun _ => .error (.js "read failed")
    uploadString := fun _ _ _ => .error (.js "unreachable")
    getIdToken := .ok (some "token123")
    restPost := fun _ _ _ _ => .ok { status := 404, statusText := "Not Found", body := "bucket missing" }
    getDownloadURL := fun _ => .error (.js "unreachable") }

def sampleCoords : Coords := { latitude := some 3, longitude := some (-7) }

def sampleLocEnv : LocEnv :=
  { isConnected := true, platform := "android", permStatus := "granted",
    servicesEnabled := true, highFix := none, balancedFix := none,
    lastKnown := some { coords := some sampleCoords } }

/- ===== Claim theorems ===== -/

/-- Claim C1: for every remote feed emission received while the engine holds a
live subscription, the in-memory message list immediately after processing the
emission equals exactly the decoded content of that emission, one Message per
document in emitted order, with no entries retained from any earlier list
state (any prior event history evs is discarded by the whole-list replace). -/
theorem chat_emission_whole_list_replace (st : Session) (evs : List SessionEvent)
    (e : Emission) (h : st.subscribed = true) :
    (runSession st (evs ++ [.emission e])).messages = e.docs.map (decodeDoc st.name e.now) := by
  rw [runSession_append]
  have hsub : (runSession st evs).subscribed = true := (runSession_subscribed evs st).trans h
  have hname : (runSession st evs).name = st.name := runSession_name evs st
  simp [stepEvent, hsub, hname]

theorem chat_emission_whole_list_replace_witness :
    (start true true "Ann" .absent).subscribed = true ∧
    (runSession (start true true "Ann" .absent)
        ([SessionEvent.connChange false] ++ [SessionEvent.emission sampleEmission])).messages =
      sampleEmission.docs.map (decodeDoc (start true true "Ann" RawCache.absent).name sampleEmission.now) :=
  ⟨rfl, chat_emission_whole_list_replace (start true true "Ann" .absent)
    [SessionEvent.connChange false] sampleEmission rfl⟩

/-- Claim C2: a send while connectivity is false performs no remote write,
leaves the session (in-memory list and cache) unchanged and raises exactly the
offline-rejection alert; a send while connectivity is true leaves the session
unchanged and attempts exactly one remote document creation. -/
theorem chat_onSend_connectivity_gate (st : Session) (batch : List Message) :
    onSend false st batch = (st, [SendEffect.offlineAlert]) ∧
    onSend true st batch = (st, [SendEffect.remoteWrite batch.head?]) :=
  ⟨rfl, rfl⟩

/-- Claim C10: a connected send of a batch of two or more messages performs
exactly one remote document creation, carrying only the first element of the
batch; the remaining elements are never written. -/
theorem onSend_writes_only_first_of_batch (st : Session) (m1 m2 : Message)
    (rest : List Message) :
    onSend true st (m1 :: m2 :: rest) = (st, [SendEffect.remoteWrite (some m1)]) :=
  rfl

/-- Claim C5: serializing a message list to the cache (createdAt rendered as
an ISO-8601 string) and loading that snapshot offline reproduces the same
ordered sequence with every createdAt reconstituted to a timestamp equal to
the original, for every list whose timestamps lie in the representable
four-digit-year range. -/
theorem cache_round_trip (dbPresent : Bool) (name : String) (msgs : List Message)
    (h : ∀ m ∈ msgs, m.createdAt < maxIsoTime) :
    (start dbPresent false name (.value (.arr (msgs.map serializeMessage)))).messages = msgs := by
  simp only [start, Bool.false_eq_true, if_false, loadFromCache]
  exact map_restore_serialize msgs h

theorem cache_round_trip_witness :
    (∀ m ∈ [sampleMessage], m.createdAt < maxIsoTime) ∧
    (start true false "Ann" (.value (.arr ([sampleMessage].map serializeMessage)))).messages =
      [sampleMessage] :=
  ⟨by decide, cache_round_trip true "Ann" [sampleMessage] (by decide)⟩

/-- Claim C6: an absent, unparseable, or non-sequence cache snapshot makes the
offline load path yield the empty in-memory list; the load function is total,
so no error reaches the caller in any of these cases. -/
theorem cache_degraded_load_empty (dbPresent : Bool) (name : String) :
    (start dbPresent false name .absent).messages = [] ∧
    (start dbPresent false name .corrupt).messages = [] ∧
    (start dbPresent false name (.value .nonArray)).messages = [] :=
  ⟨rfl, rfl, rfl⟩

/-- Claim C7: the choice between the live-subscription path and the cache-load
path is fixed by the connectivity snapshot at start time: a session started
offline never holds a live remote subscription, whatever connectivity-change,
emission, or send events occur afterwards, until a fresh start call replaces
the session. -/
theorem offline_session_never_subscribes (dbPresent : Bool) (name : String)
    (cache : RawCache) (evs : List SessionEvent) :
    (runSession (start dbPresent false name cache) evs).subscribed = false := by
  rw [runSession_subscribed]
  rfl

/-- Claim C8: decoding a remote document defaults a missing author to the
synthesized anonymous author, defaults a missing timestamp to the current
time, carries the system flag exactly when the document sets it to true, and
defaults missing text to the empty string. -/
theorem decodeDoc_defaults (name : String) (now : Nat) (id : String) (dd : DocData) :
    (dd.user = none → (decodeDoc name now ⟨id, some dd⟩).user = anonUser name) ∧
    (dd.createdAt = none → (decodeDoc name now ⟨id, some dd⟩).createdAt = now) ∧
    ((decodeDoc name now ⟨id, some dd⟩).system = true ↔ dd.system = some true) ∧
    (dd.text = none → (decodeDoc name now ⟨id, some dd⟩).text = "") := by
  refine ⟨?_, ?_, ?_, ?_⟩
  · intro h; simp [decodeDoc, h]
  · intro h; simp [decodeDoc, decodeCreatedAt, h]
  · cases hs : dd.system with
    | none => simp [decodeDoc, hs]
    | some b => cases b <;> simp [decodeDoc, hs]
  · intro h; simp [decodeDoc, h]

theorem decodeDoc_defaults_witness :
    (decodeDoc "Ann" 7 ⟨"d1", some emptyDocData⟩).user = anonUser "Ann" ∧
    (decodeDoc "Ann" 7 ⟨"d1", some emptyDocData⟩).createdAt = 7 ∧
    ((decodeDoc "Ann" 7 ⟨"d1", some emptyDocData⟩).system = true ↔
      emptyDocData.system = some true) ∧
    (decodeDoc "Ann" 7 ⟨"d1", some emptyDocData⟩).text = "" := by
  have h := decodeDoc_defaults "Ann" 7 "d1" emptyDocData
  exact ⟨h.1 rfl, h.2.1 rfl, h.2.2.1, h.2.2.2 rfl⟩

/-- Claim C3: when the primary tier fails and the secondary tier succeeds,
uploadImageAsync resolves with the download URL of the shared destination
path and never invokes the tertiary tier; moreover the attempted-tier trace
of every run is a prefix of primary, secondary, tertiary, so the tiers are
attempted strictly in that order. -/
theorem upload_secondary_success_skips_tertiary :
    (∀ (env : StorageEnv) (uri folder : String) (userId : Option String) (now rand : Nat)
        (b : Blob) (e1 : UploadError) (b64 url : String),
      env.fetchBlob uri = .ok b →
      uploadTier1 env (mkPath folder userId now rand uri) b (contentTypeOf b) = .error e1 →
      env.readAsBase64 uri = .ok b64 →
      env.uploadString (mkPath folder userId now rand uri) b64 (contentTypeOf b) = .ok () →
      env.getDownloadURL (mkPath folder userId now rand uri) = .ok url →
      uploadImageAsync env uri folder userId now rand = (.ok url, [.primary, .secondary])) ∧
    (∀ (env : StorageEnv) (uri folder : String) (userId : Option String) (now rand : Nat),
      (uploadImageAsync env uri folder userId now rand).2 = [] ∨
      (uploadImageAsync env uri folder userId now rand).2 = [.primary] ∨
      (uploadImageAsync env uri folder userId now rand).2 = [.primary, .secondary] ∨
      (uploadImageAsync env uri folder userId now rand).2 = [.primary, .secondary, .tertiary]) := by
  constructor
  · intro env uri folder userId now rand b e1 b64 url hf ht1 hb hup hurl
    simp only [uploadImageAsync, hf, ht1, uploadTier2, hb, hup, hurl]
  · intro env uri folder userId now rand
    rcases hf : env.fetchBlob uri with e | b
    · simp [uploadImageAsync, hf]
    · rcases ht1 : uploadTier1 env (mkPath folder userId now rand uri) b (contentTypeOf b) with e1 | u1
      · rcases ht2 : uploadTier2 env uri (mkPath folder userId now rand uri) (contentTypeOf b) with e2 | u2
        · rcases ht3 : uploadTier3 env (mkPath folder userId now rand uri) (contentTypeOf b) b with e3 | u3
          · simp [uploadImageAsync, hf, ht1, ht2, ht3]
          · simp [uploadImageAsync, hf, ht1, ht2, ht3]
        · simp [uploadImageAsync, hf, ht1, ht2]
      · simp [uploadImageAsync, hf, ht1]

theorem upload_secondary_success_skips_tertiary_witness :
    uploadImageAsync sampleEnvT2 "file:/a/photo.jpg" "images" (some "u1") 111 222 =
      (.ok "https://example.com/files/1", [Tier.primary, Tier.secondary]) :=
  upload_secondary_success_skips_tertiary.1 sampleEnvT2 "file:/a/photo.jpg" "images"
    (some "u1") 111 222 { bytes := [1, 2], type := "" } (.js "bytes transport failed")
    "QUJD" "https://example.com/files/1" rfl rfl rfl rfl rfl

/-- Claim C4: when the primary and secondary tiers fail and the tertiary REST
request returns HTTP 404, the propagated error is the distinguishable
bucket-not-provisioned error; for any other non-2xx tertiary response the
propagated error carries the status code, the status text and the response
body. -/
theorem upload_tertiary_error_taxonomy :
    (∀ (env : StorageEnv) (uri folder : String) (userId : Option String) (now rand : Nat)
        (b : Blob) (e1 e2 : UploadError) (tok : Option String) (resp : HttpResp),
      env.fetchBlob uri = .ok b →
      uploadTier1 env (mkPath folder userId now rand uri) b (contentTypeOf b) = .error e1 →
      uploadTier2 env uri (mkPath folder userId now rand uri) (contentTypeOf b) = .error e2 →
      env.getIdToken = .ok tok →
      env.restPost (restUploadUrl storageBucketName (mkPath folder userId now rand uri))
          tok (contentTypeOf b) b = .ok resp →
      resp.status = 404 →
      (uploadImageAsync env uri folder userId now rand).1 =
        .error (.restNotProvisioned storageBucketName resp.body)) ∧
    (∀ (env : StorageEnv) (uri folder : String) (userId : Option String) (now rand : Nat)
        (b : Blob) (e1 e2 : UploadError) (tok : Option String) (resp : HttpResp),
      env.fetchBlob uri = .ok b →
      uploadTier1 env (mkPath folder userId now rand uri) b (contentTypeOf b) = .error e1 →
      uploadTier2 env uri (mkPath folder userId now rand uri) (contentTypeOf b) = .error e2 →
      env.getIdToken = .ok tok →
      env.restPost (restUploadUrl storageBucketName (mkPath folder userId now rand uri))
          tok (contentTypeOf b) b = .ok resp →
      ¬(200 ≤ resp.status ∧ resp.status ≤ 299) →
      resp.status ≠ 404 →
      (uploadImageAsync env uri folder userId now rand).1 =
        .error (.restHttp resp.status resp.statusText resp.body)) := by
  constructor
  · intro env uri folder userId now rand b e1 e2 tok resp hf ht1 ht2 htok hpost hst
    have hcond : ¬(200 ≤ resp.status ∧ resp.status ≤ 299) := by omega
    simp only [uploadImageAsync, hf, ht1, ht2, uploadTier3, htok, hpost, if_neg hcond,
      if_pos hst]
  · intro env uri folder userId now rand b e1 e2 tok resp hf ht1 ht2 htok hpost hcond h404
    simp only [uploadImageAsync, hf, ht1, ht2, uploadTier3, htok, hpost, if_neg hcond,
      if_neg h404]

theorem upload_tertiary_error_taxonomy_witness :
    (uploadImageAsync sampleEnv404 "file:/a/pic.png" "images" none 5 6).1 =
      .error (.restNotProvisioned storageBucketName "bucket missing") :=
  upload_tertiary_error_taxonomy.1 sampleEnv404 "file:/a/pic.png" "images" none 5 6
    { bytes := [7], type := "image/png" } (.js "bytes transport failed") (.js "read failed")
    (some "token123") { status := 404, statusText := "Not Found", body := "bucket missing" }
    rfl rfl rfl rfl rfl rfl

/-- Claim C9: with permission granted and services enabled, when the
high-accuracy and balanced-accuracy fixes both fail and a last-known position
with numeric coordinates is available, shareLocation resolves with that
coordinate pair; and when no attempt yields numeric coordinates, it signals
unavailability with platform remediation guidance (an alert outcome of the
total function, not a hard error). -/
theorem shareLocation_last_known_fallback :
    (∀ (env : LocEnv) (p : Position) (c : Coords) (la lo : Int),
      env.isConnected = true → env.permStatus = "granted" → env.servicesEnabled = true →
      env.highFix = none → env.balancedFix = none → env.lastKnown = some p →
      p.coords = some c → c.latitude = some la → c.longitude = some lo →
      shareLocation env = .sent la lo) ∧
    (∀ env : LocEnv,
      env.isConnected = true → env.permStatus = "granted" → env.servicesEnabled = true →
      (((resolvedPosition env).bind Position.coords).bind Coords.latitude = none ∨
        ((resolvedPosition env).bind Position.coords).bind Coords.longitude = none) →
      shareLocation env = .unavailableAlert (locationUnavailableTip env.platform)) := by
  constructor
  · intro env p c la lo h1 h2 h3 h4 h5 h6 h7 h8 h9
    simp [shareLocation, resolvedPosition, h1, h2, h3, h4, h5, h6, h7, h8, h9]
  · intro env h1 h2 h3 h4
    rcases h4 with h4 | h4
    · simp [shareLocation, h1, h2, h3, h4]
    · rcases hx : ((resolvedPosition env).bind Position.coords).bind Coords.latitude with _ | v <;>
        simp [shareLocation, h1, h2, h3, h4, hx]

theorem shareLocation_last_known_fallback_witness :
    shareLocation sampleLocEnv = .sent 3 (-7) :=
  shareLocation_last_known_fallback.1 sampleLocEnv { coords := some sampleCoords }
    sampleCoords 3 (-7) rfl rfl rfl rfl rfl rfl rfl rfl rfl
